import Mathlib

set_option maxRecDepth 4000

/-!
Shallow embedding of the MCQ quiz backend (app/server.py, app/data/mcq_store.py,
app/widgets/mcq_widget.py).

Python dictionaries carrying questions are modelled by the typed structure
`MCQQuestion` (matching the `MCQQuestion` TypedDict of mcq_store.py); action
payloads are modelled by `ActionPayload` whose fields are `Option`-valued, with
`none` standing for an absent key (an absent or empty payload dict has every
field `none`).  Python `int` is modelled by `Int`; Python list indexing
(including negative-index wraparound and `IndexError`) by `pyIndex`.  The
handlers of server.py are async generators yielding stream events and
appending hidden context items; each is modelled as a pure function returning
a `HandlerResult` (the list of yielded events plus the list of appended hidden
records), wrapped in `Except` where an exception can escape.
-/

/-- An MCQ option, from `MCQOption` in mcq_store.py. -/
structure MCQOption where
  label : String
  value : String
  disabled : Option Bool
deriving DecidableEq, Repr

/-- An MCQ question, from `MCQQuestion` in mcq_store.py. -/
structure MCQQuestion where
  id : String
  prompt : String
  options : List MCQOption
  correct_answer : String
  hint : Option String
  explanation : Option String
deriving DecidableEq, Repr

/-- The feedback dict passed to the widget builder: keys `hint` and
`explanation`, each possibly `None`.  The empty dict is `⟨none, none⟩`. -/
structure Feedback where
  hint : Option String
  explanation : Option String
deriving DecidableEq, Repr

/-- An action reference (`type` plus payload keys `questionId` / `index`)
embedded inside a widget node, from _build_fallback_widget. -/
structure WAction where
  type : String
  questionId : String
  index : Int
deriving DecidableEq, Repr

/-- The declarative widget node tree, covering exactly the node shapes produced
by `_build_fallback_widget` in mcq_widget.py.  `SubmitButton` is the button
dict carrying `submit: True`; `ClickButton` is a button with an
`onClickAction` (its `variant` / `iconEnd` / `disabled` keys optional, as in
the source dicts). -/
inductive WidgetNode where
  | Card (size : String) (children : List WidgetNode)
  | Row (children : List WidgetNode)
  | Col (gap : Int) (children : List WidgetNode)
  | Caption (value : String)
  | Spacer
  | Badge (label : String) (color : String)
  | Title (value : String) (size : String)
  | Form (onSubmitAction : WAction) (children : List WidgetNode)
  | RadioGroup (name : String) (options : List MCQOption) (defaultValue : String)
      (direction : String) (required : Bool) (disabled : Bool)
  | SubmitButton (label : String) (style : String) (disabled : Bool)
  | ClickButton (label : String) (variant : Option String) (iconEnd : Option String)
      (onClickAction : WAction) (disabled : Option Bool)

/-- The `widget_data` dict assembled at the top of build_mcq_widget. -/
structure WidgetData where
  questionId : String
  index : Int
  total : Int
  prompt : String
  options : List MCQOption
  selected : String
  status : String
  feedback : Feedback
deriving DecidableEq, Repr

/-- `_build_fallback_widget(data)` from mcq_widget.py, node for node. -/
def _build_fallback_widget (data : WidgetData) : WidgetNode :=
  WidgetNode.Card "md" [
    WidgetNode.Row [
      WidgetNode.Caption ("Question " ++ toString data.index ++ " of " ++ toString data.total),
      WidgetNode.Spacer,
      WidgetNode.Badge "MCQ" "info"
    ],
    WidgetNode.Title data.prompt "sm",
    WidgetNode.Form ⟨"mcq.submit", data.questionId, data.index⟩ [
      WidgetNode.Col 3 [
        WidgetNode.RadioGroup "answer" data.options data.selected "col" true
          (data.status == "correct"),
        WidgetNode.Row [
          WidgetNode.SubmitButton
            (if data.status == "incorrect" then "Try again" else "Submit answer")
            "primary" (data.status == "correct"),
          WidgetNode.ClickButton "Clear" (some "outline") none
            ⟨"mcq.clear", data.questionId, data.index⟩ none,
          WidgetNode.Spacer,
          WidgetNode.ClickButton
            (if data.index == data.total then "Finish" else "Next")
            none (some "chevron-right")
            ⟨(if data.index == data.total then "mcq.finish" else "mcq.next"),
              data.questionId, data.index⟩
            (some (data.status != "correct"))
        ]
      ]
    ]
  ]

/-- `build_mcq_widget(...)` from mcq_widget.py.  The optional richer template
path loads a `.widget` file at runtime; no such file exists in this
repository, so `_get_widget_template()` returns `None` and the function
always takes the fallback branch.  The embedding models that always-available
fallback configuration (logging calls carry no data flow and are omitted). -/
def build_mcq_widget (question_id : String) (index : Int) (total : Int) (prompt : String)
    (options : List MCQOption) (selected : String) (status : String)
    (feedback : Feedback) : WidgetNode :=
  let widget_data : WidgetData :=
    ⟨question_id, index, total, prompt, options, selected, status, feedback⟩
  _build_fallback_widget widget_data

/-- Python truthiness of an optional string: `None` and `""` are falsy. -/
def strFalsy : Option String → Bool
  | none => true
  | some s => s == ""

/-- Python `lst[i]` on a list: nonnegative indices are direct, negative
indices wrap once from the end, anything else raises IndexError (`none`). -/
def pyIndex {α : Type} (l : List α) (i : Int) : Option α :=
  if 0 ≤ i then l.get? i.toNat
  else if 0 ≤ (l.length : Int) + i then l.get? ((l.length : Int) + i).toNat
  else none

/-- Python `correct_answer == answer` where `correct_answer` is a string and
`answer` may be `None` (a string never equals `None`). -/
def pyEq (answer : Option String) (correct_answer : String) : Bool :=
  match answer with
  | some a => correct_answer == a
  | none => false

/-- The default question list loaded by `MCQStore._load_default_questions`.
The apostrophe in the second hint is spelled via `Char.ofNat 39`. -/
def default_questions : List MCQQuestion :=
  [ { id := "q1",
      prompt := "What problem is identified in the brief?",
      options :=
        [ ⟨"AI tools lack a structured, persistent learning flow.", "a", none⟩,
          ⟨"AI models cannot read PDFs.", "b", none⟩,
          ⟨"Online courses are too long.", "c", none⟩,
          ⟨"PDF uploads are insecure.", "d", none⟩ ],
      correct_answer := "a",
      hint := some "Focus on the need for structure over raw capabilities.",
      explanation := some "The brief cites a missing structured, persistent pedagogy as the core issue." },
    { id := "q2",
      prompt := "What is the capital of France?",
      options :=
        [ ⟨"London", "a", none⟩,
          ⟨"Paris", "b", none⟩,
          ⟨"Berlin", "c", none⟩,
          ⟨"Madrid", "d", none⟩ ],
      correct_answer := "b",
      hint := some ("It" ++ String.singleton (Char.ofNat 39) ++ "s known as the City of Light"),
      explanation := some "Paris is the capital and largest city of France." } ]

/-- `MCQStore.get_question`: first question with matching id, else `None`. -/
def get_question (questions : List MCQQuestion) (question_id : String) : Option MCQQuestion :=
  questions.find? (fun question => question.id == question_id)

/-- Result dict of `MCQStore.check_answer` in the found case. -/
structure CheckResult where
  correct : Bool
  hint : Option String
  explanation : Option String
deriving DecidableEq, Repr

/-- `MCQStore.check_answer(question_id, answer)`: `none` models the
`{"error": "Question not found"}` dict. -/
def check_answer (questions : List MCQQuestion) (question_id : String)
    (answer : String) : Option CheckResult :=
  match get_question questions question_id with
  | none => none
  | some question =>
    let is_correct := question.correct_answer == answer
    some { correct := is_correct,
           hint := if is_correct then none else question.hint,
           explanation := if is_correct then question.explanation else none }

/-- Thread metadata: `currentQuiz = some qs` models a metadata dict containing
the key `current_quiz` with question list `qs`; `none` models a missing or
falsy metadata dict or a dict without that key. -/
structure ThreadMeta where
  currentQuiz : Option (List MCQQuestion)
deriving DecidableEq, Repr

/-- An action payload (untrusted client dict); `none` fields model absent
keys, so the empty payload is `⟨none, none, none⟩`. -/
structure ActionPayload where
  questionId : Option String
  answer : Option String
  index : Option Int
deriving DecidableEq, Repr

/-- The sender widget item: its id and whether `sender.widget` is truthy. -/
structure Sender where
  id : String
  hasWidget : Bool
deriving DecidableEq, Repr

/-- A stream event yielded by a handler: a widget-root update on an existing
item, or a completed assistant message (its text). -/
inductive StreamEvent where
  | threadItemUpdated (itemId : String) (widget : WidgetNode)
  | threadItemDone (messageText : String)

/-- The data of the hidden audit record appended by the submit handler
(`HiddenContextItem` content: the submitted answer, the question id and the
correctness outcome). -/
structure HiddenRecord where
  answer : Option String
  questionId : String
  correct : Bool
deriving DecidableEq, Repr

/-- What one handler invocation does: the yielded stream events plus the
hidden context items appended to the thread. -/
structure HandlerResult where
  events : List StreamEvent
  hiddenItems : List HiddenRecord

/-- Two-tier question resolution shared verbatim by the submit and clear
handlers (server.py lines 205-226 and 292-309): search the thread metadata
quiz first; on a miss (or no metadata quiz) fall back to the MCQStore list,
taking the total question count from whichever tier is used last. -/
def resolve_question (meta : ThreadMeta) (storeQuestions : List MCQQuestion)
    (question_id : String) : Option MCQQuestion × Int :=
  match meta.currentQuiz with
  | some quiz =>
    match quiz.find? (fun q => q.id == question_id) with
    | some q => (some q, (quiz.length : Int))
    | none => (get_question storeQuestions question_id, (storeQuestions.length : Int))
  | none => (get_question storeQuestions question_id, (storeQuestions.length : Int))

/-- The question list used by the next handler (server.py lines 353-360):
the metadata quiz when the `current_quiz` key is present, else the whole
MCQStore list (no per-id fallback). -/
def next_questions (meta : ThreadMeta) (storeQuestions : List MCQQuestion) :
    List MCQQuestion :=
  match meta.currentQuiz with
  | some quiz => quiz
  | none => storeQuestions

/-- `_handle_submit_action` from server.py. -/
def _handle_submit_action (meta : ThreadMeta) (storeQuestions : List MCQQuestion)
    (payload : ActionPayload) (sender : Option Sender) : HandlerResult :=
  match sender with
  | none => ⟨[], []⟩
  | some s =>
    if strFalsy payload.questionId || !s.hasWidget then ⟨[], []⟩
    else
      let question_id := payload.questionId.getD ""
      let answer := payload.answer
      match resolve_question meta storeQuestions question_id with
      | (none, _) => ⟨[], []⟩
      | (some question, total) =>
        let correct_answer := question.correct_answer
        let is_correct := pyEq answer correct_answer
        let status := if is_correct then "correct" else "incorrect"
        let hidden : HiddenRecord := ⟨answer, question_id, is_correct⟩
        let current_index : Int := payload.index.getD 1
        let updated_widget :=
          build_mcq_widget question_id current_index total question.prompt
            question.options (answer.getD "") status
            ⟨(if is_correct then none else question.hint),
             (if is_correct then question.explanation else none)⟩
        ⟨[StreamEvent.threadItemUpdated s.id updated_widget], [hidden]⟩

/-- `_handle_clear_action` from server.py. -/
def _handle_clear_action (meta : ThreadMeta) (storeQuestions : List MCQQuestion)
    (payload : ActionPayload) (sender : Option Sender) : HandlerResult :=
  match sender with
  | none => ⟨[], []⟩
  | some s =>
    if !s.hasWidget then ⟨[], []⟩
    else if strFalsy payload.questionId then ⟨[], []⟩
    else
      let question_id := payload.questionId.getD ""
      match resolve_question meta storeQuestions question_id with
      | (none, _) => ⟨[], []⟩
      | (some question, total) =>
        let current_index : Int := payload.index.getD 1
        ⟨[StreamEvent.threadItemUpdated s.id
            (build_mcq_widget question_id current_index total question.prompt
              question.options "" "idle" ⟨none, none⟩)], []⟩

/-- The closing assistant message of `_handle_finish_action`. -/
def closing_message : String :=
  "Great job completing the quiz! Would you like to try another one?"

/-- `_handle_finish_action` from server.py: unconditionally yields the closing
assistant message; reads neither the payload nor the sender. -/
def _handle_finish_action : HandlerResult :=
  ⟨[StreamEvent.threadItemDone closing_message], []⟩

/-- `_handle_next_action` from server.py.  `Except.error` models a Python
exception escaping the handler (the `questions[next_index - 1]` lookup can
raise IndexError for a sufficiently negative client-supplied index). -/
def _handle_next_action (meta : ThreadMeta) (storeQuestions : List MCQQuestion)
    (payload : ActionPayload) (sender : Option Sender) :
    Except String HandlerResult :=
  match sender with
  | none => Except.ok ⟨[], []⟩
  | some s =>
    if !s.hasWidget then Except.ok ⟨[], []⟩
    else if strFalsy payload.questionId then Except.ok ⟨[], []⟩
    else
      let current_index : Int := payload.index.getD 1
      let questions := next_questions meta storeQuestions
      let total : Int := (questions.length : Int)
      let next_index : Int := current_index + 1
      if next_index > total then Except.ok _handle_finish_action
      else if next_index ≤ (questions.length : Int) then
        match pyIndex questions (next_index - 1) with
        | some next_question =>
          Except.ok ⟨[StreamEvent.threadItemUpdated s.id
            (build_mcq_widget next_question.id next_index total
              next_question.prompt next_question.options "" "idle"
              ⟨none, none⟩)], []⟩
        | none => Except.error "IndexError"
      else Except.ok ⟨[], []⟩

/-- The `action` dispatch method of StarterAppServer: route on the action
type; any unrecognized type falls through and yields nothing. -/
def action (actionType : String) (meta : ThreadMeta)
    (storeQuestions : List MCQQuestion) (payload : ActionPayload)
    (sender : Option Sender) : Except String HandlerResult :=
  if actionType == "mcq.submit" then
    Except.ok (_handle_submit_action meta storeQuestions payload sender)
  else if actionType == "mcq.clear" then
    Except.ok (_handle_clear_action meta storeQuestions payload sender)
  else if actionType == "mcq.next" then
    _handle_next_action meta storeQuestions payload sender
  else if actionType == "mcq.finish" then
    Except.ok _handle_finish_action
  else Except.ok ⟨[], []⟩

/-- Python truthiness of the sender argument: absent, or present without a
truthy `sender.widget`, fails the handlers entry guard. -/
def senderOk : Option Sender → Bool
  | none => false
  | some s => s.hasWidget

/-- The `index` value carried in the payload of the form submit action of a
rendered card: the sole channel by which the client echoes the current
position back to the handlers. -/
def widget_carried_index : WidgetNode → Option Int
  | WidgetNode.Card _ [_, _, WidgetNode.Form a _] => some a.index
  | _ => none

/-- The advance (Next / Finish) button: the last entry of the button row of
the fallback card. -/
def advance_button : WidgetNode → Option WidgetNode
  | WidgetNode.Card _ [_, _, WidgetNode.Form _
      [WidgetNode.Col _ [_, WidgetNode.Row [_, _, _, b]]]] => some b
  | _ => none

/-- A concrete two-question quiz used to instantiate the theorems below. -/
def sampleQ1 : MCQQuestion :=
  { id := "s1", prompt := "P1",
    options := [⟨"A", "a", none⟩, ⟨"B", "b", none⟩],
    correct_answer := "a", hint := some "H1", explanation := some "E1" }

/-- Second sample question. -/
def sampleQ2 : MCQQuestion :=
  { id := "s2", prompt := "P2",
    options := [⟨"A", "a", none⟩, ⟨"B", "b", none⟩],
    correct_answer := "b", hint := some "H2", explanation := some "E2" }

/-- The sample quiz list. -/
def sampleQuiz : List MCQQuestion := [sampleQ1, sampleQ2]

theorem submit_resolved_eq (meta : ThreadMeta) (store : List MCQQuestion)
    (qid : String) (hqid : qid ≠ "") (ans : Option String) (idx : Option Int)
    (sid : String) (q : MCQQuestion) (t : Int)
    (hres : resolve_question meta store qid = (some q, t)) :
    _handle_submit_action meta store ⟨some qid, ans, idx⟩ (some ⟨sid, true⟩) =
      ⟨[StreamEvent.threadItemUpdated sid
          (build_mcq_widget qid (idx.getD 1) t q.prompt q.options (ans.getD "")
            (if pyEq ans q.correct_answer then "correct" else "incorrect")
            ⟨(if pyEq ans q.correct_answer then none else q.hint),
             (if pyEq ans q.correct_answer then q.explanation else none)⟩)],
       [⟨ans, qid, pyEq ans q.correct_answer⟩]⟩ := by
  unfold _handle_submit_action
  simp [strFalsy, hqid, hres]

theorem pyEq_true_iff (ans : Option String) (c : String) :
    pyEq ans c = true ↔ ans = some c := by
  cases ans with
  | none => simp [pyEq]
  | some a =>
    simp only [pyEq, beq_iff_eq, Option.some.injEq]
    exact ⟨fun h => h.symm, fun h => h.symm⟩

theorem clear_resolved_eq (meta : ThreadMeta) (store : List MCQQuestion)
    (qid : String) (hqid : qid ≠ "") (ans : Option String) (idx : Option Int)
    (sid : String) (q : MCQQuestion) (t : Int)
    (hres : resolve_question meta store qid = (some q, t)) :
    _handle_clear_action meta store ⟨some qid, ans, idx⟩ (some ⟨sid, true⟩) =
      ⟨[StreamEvent.threadItemUpdated sid
          (build_mcq_widget qid (idx.getD 1) t q.prompt q.options "" "idle"
            ⟨none, none⟩)], []⟩ := by
  unfold _handle_clear_action
  simp [strFalsy, hqid, hres]

theorem next_finish_eq (meta : ThreadMeta) (store : List MCQQuestion)
    (qid : String) (hqid : qid ≠ "") (ans : Option String) (cur : Int) (sid : String)
    (hgt : cur + 1 > ((next_questions meta store).length : Int)) :
    _handle_next_action meta store ⟨some qid, ans, some cur⟩ (some ⟨sid, true⟩) =
      Except.ok _handle_finish_action := by
  unfold _handle_next_action
  simp [strFalsy, hqid, hgt]

theorem next_render_eq (meta : ThreadMeta) (store : List MCQQuestion)
    (qid : String) (hqid : qid ≠ "") (ans : Option String) (cur : Int)
    (hcur : 0 ≤ cur) (sid : String) (q : MCQQuestion)
    (hle : cur + 1 ≤ ((next_questions meta store).length : Int))
    (hget : (next_questions meta store).get? cur.toNat = some q) :
    _handle_next_action meta store ⟨some qid, ans, some cur⟩ (some ⟨sid, true⟩) =
      Except.ok ⟨[StreamEvent.threadItemUpdated sid
        (build_mcq_widget q.id (cur + 1) ((next_questions meta store).length : Int)
          q.prompt q.options "" "idle" ⟨none, none⟩)], []⟩ := by
  unfold _handle_next_action
  have hgt : ¬ (cur + 1 > ((next_questions meta store).length : Int)) := by omega
  simp [strFalsy, hqid, hgt, hle, pyIndex, Int.add_sub_cancel, hcur]
  rw [List.get?_eq_getElem?] at hget
  rw [hget]

theorem submit_abort (meta : ThreadMeta) (store : List MCQQuestion)
    (payload : ActionPayload) (sender : Option Sender)
    (h : strFalsy payload.questionId = true ∨ senderOk sender = false) :
    _handle_submit_action meta store payload sender = ⟨[], []⟩ := by
  cases sender with
  | none => rfl
  | some s =>
    unfold _handle_submit_action
    rcases h with h | h
    · simp [h]
    · simp [senderOk] at h
      simp [h]

theorem clear_abort (meta : ThreadMeta) (store : List MCQQuestion)
    (payload : ActionPayload) (sender : Option Sender)
    (h : strFalsy payload.questionId = true ∨ senderOk sender = false) :
    _handle_clear_action meta store payload sender = ⟨[], []⟩ := by
  cases sender with
  | none => rfl
  | some s =>
    unfold _handle_clear_action
    rcases h with h | h
    · simp [h]
    · simp [senderOk] at h
      simp [h]

theorem next_abort (meta : ThreadMeta) (store : List MCQQuestion)
    (payload : ActionPayload) (sender : Option Sender)
    (h : strFalsy payload.questionId = true ∨ senderOk sender = false) :
    _handle_next_action meta store payload sender = Except.ok ⟨[], []⟩ := by
  cases sender with
  | none => rfl
  | some s =>
    unfold _handle_next_action
    rcases h with h | h
    · simp [h]
    · simp [senderOk] at h
      simp [h]

theorem submit_notfound (meta : ThreadMeta) (store : List MCQQuestion)
    (qid : String) (hqid : qid ≠ "") (ans : Option String) (idx : Option Int)
    (sid : String) (hw : Bool)
    (hres : (resolve_question meta store qid).1 = none) :
    _handle_submit_action meta store ⟨some qid, ans, idx⟩ (some ⟨sid, hw⟩) = ⟨[], []⟩ := by
  unfold _handle_submit_action
  rcases hr : resolve_question meta store qid with ⟨o, t⟩
  rw [hr] at hres
  simp at hres
  subst hres
  cases hw with
  | false => simp
  | true => simp [strFalsy, hqid, hr]

theorem clear_notfound (meta : ThreadMeta) (store : List MCQQuestion)
    (qid : String) (hqid : qid ≠ "") (ans : Option String) (idx : Option Int)
    (sid : String) (hw : Bool)
    (hres : (resolve_question meta store qid).1 = none) :
    _handle_clear_action meta store ⟨some qid, ans, idx⟩ (some ⟨sid, hw⟩) = ⟨[], []⟩ := by
  unfold _handle_clear_action
  rcases hr : resolve_question meta store qid with ⟨o, t⟩
  rw [hr] at hres
  simp at hres
  subst hres
  cases hw with
  | false => simp
  | true => simp [strFalsy, hqid, hr]

theorem widget_carried_index_build (qid : String) (i t : Int) (p : String)
    (o : List MCQOption) (sel status : String) (f : Feedback) :
    widget_carried_index (build_mcq_widget qid i t p o sel status f) = some i := rfl

/-- C1: for every submit action whose questionId resolves to a question, the
handler renders status `correct` exactly when the submitted answerValue is
string-equal (case-sensitive, no trimming) to the correct-answer
identifier of the question, and `incorrect` otherwise. -/
theorem C1_submit_status_correct_iff (meta : ThreadMeta) (store : List MCQQuestion)
    (qid : String) (hqid : qid ≠ "") (ans : Option String) (idx : Option Int)
    (sid : String) (q : MCQQuestion) (t : Int)
    (hres : resolve_question meta store qid = (some q, t)) :
    _handle_submit_action meta store ⟨some qid, ans, idx⟩ (some ⟨sid, true⟩) =
      ⟨[StreamEvent.threadItemUpdated sid
          (build_mcq_widget qid (idx.getD 1) t q.prompt q.options (ans.getD "")
            (if pyEq ans q.correct_answer then "correct" else "incorrect")
            ⟨(if pyEq ans q.correct_answer then none else q.hint),
             (if pyEq ans q.correct_answer then q.explanation else none)⟩)],
       [⟨ans, qid, pyEq ans q.correct_answer⟩]⟩
    ∧ ((if pyEq ans q.correct_answer then "correct" else "incorrect") = "correct"
        ↔ ans = some q.correct_answer) := by
  refine ⟨submit_resolved_eq meta store qid hqid ans idx sid q t hres, ?_⟩
  rw [← pyEq_true_iff ans q.correct_answer]
  by_cases h : pyEq ans q.correct_answer <;> simp [h]

theorem C1_witness :
    ("s1" : String) ≠ "" ∧
    resolve_question ⟨some sampleQuiz⟩ [] "s1" = (some sampleQ1, (2 : Int)) ∧
    (_handle_submit_action ⟨some sampleQuiz⟩ [] ⟨some "s1", some "a", some 1⟩
        (some ⟨"w1", true⟩) =
      ⟨[StreamEvent.threadItemUpdated "w1"
          (build_mcq_widget "s1" ((some (1 : Int)).getD 1) 2 sampleQ1.prompt
            sampleQ1.options ((some "a").getD "")
            (if pyEq (some "a") sampleQ1.correct_answer then "correct" else "incorrect")
            ⟨(if pyEq (some "a") sampleQ1.correct_answer then none else sampleQ1.hint),
             (if pyEq (some "a") sampleQ1.correct_answer then sampleQ1.explanation else none)⟩)],
       [⟨some "a", "s1", pyEq (some "a") sampleQ1.correct_answer⟩]⟩
    ∧ ((if pyEq (some "a") sampleQ1.correct_answer then "correct" else "incorrect") = "correct"
        ↔ some "a" = some sampleQ1.correct_answer)) :=
  ⟨by decide, rfl,
    C1_submit_status_correct_iff ⟨some sampleQuiz⟩ [] "s1" (by decide) (some "a")
      (some 1) "w1" sampleQ1 2 rfl⟩

/-- C2: every submit action that produces a widget update rebuilds the widget
at the very position the action payload specified, never advancing it; the
next operation is the one that moves the carried position (to its successor)
and the finish operation yields only a closing message and no widget. -/
theorem C2_submit_keeps_position (meta : ThreadMeta) (store : List MCQQuestion)
    (qid : String) (hqid : qid ≠ "") (ans : Option String) (sid : String)
    (i : Int) (q : MCQQuestion) (t : Int)
    (hres : resolve_question meta store qid = (some q, t)) :
    (∃ w, (_handle_submit_action meta store ⟨some qid, ans, some i⟩
            (some ⟨sid, true⟩)).events = [StreamEvent.threadItemUpdated sid w]
        ∧ widget_carried_index w = some i)
    ∧ _handle_finish_action.events = [StreamEvent.threadItemDone closing_message]
    ∧ (∀ q2, 0 ≤ i → i + 1 ≤ ((next_questions meta store).length : Int) →
        (next_questions meta store).get? i.toNat = some q2 →
        ∃ w2, _handle_next_action meta store ⟨some qid, ans, some i⟩ (some ⟨sid, true⟩)
            = Except.ok ⟨[StreamEvent.threadItemUpdated sid w2], []⟩
          ∧ widget_carried_index w2 = some (i + 1)) := by
  refine ⟨⟨build_mcq_widget qid i t q.prompt q.options (ans.getD "")
      (if pyEq ans q.correct_answer then "correct" else "incorrect")
      ⟨(if pyEq ans q.correct_answer then none else q.hint),
       (if pyEq ans q.correct_answer then q.explanation else none)⟩, ?_, rfl⟩, rfl, ?_⟩
  · rw [submit_resolved_eq meta store qid hqid ans (some i) sid q t hres]
    exact rfl
  · intro q2 hcur hle hget
    exact ⟨_, next_render_eq meta store qid hqid ans i hcur sid q2 hle hget,
      widget_carried_index_build q2.id (i + 1) _ q2.prompt q2.options "" "idle" ⟨none, none⟩⟩

theorem C2_witness :
    ("s1" : String) ≠ "" ∧
    resolve_question ⟨some sampleQuiz⟩ [] "s1" = (some sampleQ1, (2 : Int)) ∧
    ((∃ w, (_handle_submit_action ⟨some sampleQuiz⟩ [] ⟨some "s1", some "b", some 1⟩
            (some ⟨"w1", true⟩)).events = [StreamEvent.threadItemUpdated "w1" w]
        ∧ widget_carried_index w = some 1)
    ∧ _handle_finish_action.events = [StreamEvent.threadItemDone closing_message]
    ∧ (∀ q2, 0 ≤ (1 : Int) → (1 : Int) + 1 ≤ ((next_questions ⟨some sampleQuiz⟩ []).length : Int) →
        (next_questions ⟨some sampleQuiz⟩ []).get? (1 : Int).toNat = some q2 →
        ∃ w2, _handle_next_action ⟨some sampleQuiz⟩ [] ⟨some "s1", some "b", some 1⟩
            (some ⟨"w1", true⟩)
            = Except.ok ⟨[StreamEvent.threadItemUpdated "w1" w2], []⟩
          ∧ widget_carried_index w2 = some ((1 : Int) + 1))) :=
  ⟨by decide, rfl,
    C2_submit_keeps_position ⟨some sampleQuiz⟩ [] "s1" (by decide) (some "b") "w1"
      1 sampleQ1 2 rfl⟩

/-- C3: for every submit action that resolves a question, the feedback passed
into the rebuilt widget exposes only the hint of the question (explanation
field empty) when the answer is incorrect, only its explanation (hint field
empty) when correct, and never carries both fields at once. -/
theorem C3_submit_feedback_exclusive (meta : ThreadMeta) (store : List MCQQuestion)
    (qid : String) (hqid : qid ≠ "") (ans : Option String) (idx : Option Int)
    (sid : String) (q : MCQQuestion) (t : Int)
    (hres : resolve_question meta store qid = (some q, t)) :
    (_handle_submit_action meta store ⟨some qid, ans, idx⟩ (some ⟨sid, true⟩)).events =
      [StreamEvent.threadItemUpdated sid
          (build_mcq_widget qid (idx.getD 1) t q.prompt q.options (ans.getD "")
            (if pyEq ans q.correct_answer then "correct" else "incorrect")
            ⟨(if pyEq ans q.correct_answer then none else q.hint),
             (if pyEq ans q.correct_answer then q.explanation else none)⟩)]
    ∧ (ans ≠ some q.correct_answer →
        (if pyEq ans q.correct_answer then none else q.hint) = q.hint
        ∧ (if pyEq ans q.correct_answer then q.explanation else none) = none)
    ∧ (ans = some q.correct_answer →
        (if pyEq ans q.correct_answer then none else q.hint) = none
        ∧ (if pyEq ans q.correct_answer then q.explanation else none) = q.explanation)
    ∧ ((if pyEq ans q.correct_answer then none else q.hint) = none
        ∨ (if pyEq ans q.correct_answer then q.explanation else none) = none) := by
  refine ⟨?_, ?_, ?_, ?_⟩
  · rw [submit_resolved_eq meta store qid hqid ans idx sid q t hres]
  · intro hne
    have h : pyEq ans q.correct_answer = false := by
      rw [← Bool.not_eq_true, pyEq_true_iff]
      exact hne
    simp [h]
  · intro heq
    have h : pyEq ans q.correct_answer = true := (pyEq_true_iff ans q.correct_answer).mpr heq
    simp [h]
  · by_cases h : pyEq ans q.correct_answer <;> simp [h]

theorem C3_witness :
    ("s1" : String) ≠ "" ∧
    resolve_question ⟨some sampleQuiz⟩ [] "s1" = (some sampleQ1, (2 : Int)) ∧
    ((_handle_submit_action ⟨some sampleQuiz⟩ [] ⟨some "s1", some "b", some 1⟩
        (some ⟨"w1", true⟩)).events =
      [StreamEvent.threadItemUpdated "w1"
          (build_mcq_widget "s1" ((some (1 : Int)).getD 1) 2 sampleQ1.prompt
            sampleQ1.options ((some "b").getD "")
            (if pyEq (some "b") sampleQ1.correct_answer then "correct" else "incorrect")
            ⟨(if pyEq (some "b") sampleQ1.correct_answer then none else sampleQ1.hint),
             (if pyEq (some "b") sampleQ1.correct_answer then sampleQ1.explanation else none)⟩)]
    ∧ (some "b" ≠ some sampleQ1.correct_answer →
        (if pyEq (some "b") sampleQ1.correct_answer then none else sampleQ1.hint) = sampleQ1.hint
        ∧ (if pyEq (some "b") sampleQ1.correct_answer then sampleQ1.explanation else none) = none)
    ∧ (some "b" = some sampleQ1.correct_answer →
        (if pyEq (some "b") sampleQ1.correct_answer then none else sampleQ1.hint) = none
        ∧ (if pyEq (some "b") sampleQ1.correct_answer then sampleQ1.explanation else none) = sampleQ1.explanation)
    ∧ ((if pyEq (some "b") sampleQ1.correct_answer then none else sampleQ1.hint) = none
        ∨ (if pyEq (some "b") sampleQ1.correct_answer then sampleQ1.explanation else none) = none)) :=
  ⟨by decide, rfl,
    C3_submit_feedback_exclusive ⟨some sampleQuiz⟩ [] "s1" (by decide) (some "b")
      (some 1) "w1" sampleQ1 2 rfl⟩

/-- C4 (amended): for every next action whose payload position is
nonnegative, the handler computes nextPosition as the successor of the
current position; when nextPosition exceeds the total it delegates to the
finish handler, and otherwise the question at nextPosition (1-based into the
resolved list, whose length is the total) is rendered with status reset to
idle and the selection cleared. -/
theorem C4_next_action_spec (meta : ThreadMeta) (store : List MCQQuestion)
    (qid : String) (hqid : qid ≠ "") (ans : Option String) (cur : Int)
    (hcur : 0 ≤ cur) (sid : String) :
    (cur + 1 > ((next_questions meta store).length : Int) →
      _handle_next_action meta store ⟨some qid, ans, some cur⟩ (some ⟨sid, true⟩)
        = Except.ok _handle_finish_action)
    ∧ (cur + 1 ≤ ((next_questions meta store).length : Int) →
        ∃ q, (next_questions meta store).get? cur.toNat = some q ∧
          _handle_next_action meta store ⟨some qid, ans, some cur⟩ (some ⟨sid, true⟩)
            = Except.ok ⟨[StreamEvent.threadItemUpdated sid
                (build_mcq_widget q.id (cur + 1) ((next_questions meta store).length : Int)
                  q.prompt q.options "" "idle" ⟨none, none⟩)], []⟩) := by
  constructor
  · exact fun hgt => next_finish_eq meta store qid hqid ans cur sid hgt
  · intro hle
    have hlt : cur.toNat < (next_questions meta store).length := by omega
    refine ⟨(next_questions meta store).get ⟨cur.toNat, hlt⟩, List.get?_eq_get hlt, ?_⟩
    exact next_render_eq meta store qid hqid ans cur hcur sid _ hle (List.get?_eq_get hlt)

theorem C4_witness :
    ("s1" : String) ≠ "" ∧ (0 : Int) ≤ 1 ∧
    (((1 : Int) + 1 > ((next_questions ⟨some sampleQuiz⟩ []).length : Int) →
      _handle_next_action ⟨some sampleQuiz⟩ [] ⟨some "s1", none, some 1⟩ (some ⟨"w1", true⟩)
        = Except.ok _handle_finish_action)
    ∧ ((1 : Int) + 1 ≤ ((next_questions ⟨some sampleQuiz⟩ []).length : Int) →
        ∃ q, (next_questions ⟨some sampleQuiz⟩ []).get? (1 : Int).toNat = some q ∧
          _handle_next_action ⟨some sampleQuiz⟩ [] ⟨some "s1", none, some 1⟩ (some ⟨"w1", true⟩)
            = Except.ok ⟨[StreamEvent.threadItemUpdated "w1"
                (build_mcq_widget q.id ((1 : Int) + 1)
                  ((next_questions ⟨some sampleQuiz⟩ []).length : Int)
                  q.prompt q.options "" "idle" ⟨none, none⟩)], []⟩)) :=
  ⟨by decide, by decide,
    C4_next_action_spec ⟨some sampleQuiz⟩ [] "s1" (by decide) none 1 (by decide) "w1"⟩

/-- C4 counterexample: a next action carrying the client-supplied position -3
over a two-question quiz neither delegates to finish nor produces a widget
update nor silently no-ops: the handler evaluates questions[-3] and raises
IndexError (the claim asserts the otherwise-branch always produces a widget
update at nextPosition, and that out-of-bounds indexing cannot occur). -/
theorem C4_counterexample :
    _handle_next_action ⟨some sampleQuiz⟩ [] ⟨some "s1", none, some (-3)⟩
        (some ⟨"w1", true⟩) = Except.error "IndexError"
    ∧ (Except.error "IndexError" : Except String HandlerResult)
        ≠ Except.ok _handle_finish_action
    ∧ (Except.error "IndexError" : Except String HandlerResult)
        ≠ Except.ok ⟨[], []⟩ :=
  ⟨rfl, by simp, by simp⟩

/-- C5: a next action invoked at position equal to the total question count
returns exactly what invoking the finish handler directly returns: the
single closing assistant message beginning "Great job completing the quiz!",
no widget update, and no hidden record or other thread-state change. -/
theorem C5_next_at_total_is_finish (meta : ThreadMeta) (store : List MCQQuestion)
    (qid : String) (hqid : qid ≠ "") (ans : Option String) (sid : String)
    (cur : Int) (hcur : cur = ((next_questions meta store).length : Int)) :
    _handle_next_action meta store ⟨some qid, ans, some cur⟩ (some ⟨sid, true⟩)
        = Except.ok _handle_finish_action
    ∧ _handle_finish_action = ⟨[StreamEvent.threadItemDone closing_message], []⟩
    ∧ (∃ rest, closing_message = "Great job completing the quiz!" ++ rest) :=
  ⟨next_finish_eq meta store qid hqid ans cur sid (by omega), rfl,
    ⟨" Would you like to try another one?", rfl⟩⟩

theorem C5_witness :
    ("s2" : String) ≠ "" ∧
    (2 : Int) = ((next_questions ⟨some sampleQuiz⟩ []).length : Int) ∧
    (_handle_next_action ⟨some sampleQuiz⟩ [] ⟨some "s2", some "b", some 2⟩
        (some ⟨"w1", true⟩) = Except.ok _handle_finish_action
    ∧ _handle_finish_action = ⟨[StreamEvent.threadItemDone closing_message], []⟩
    ∧ (∃ rest, closing_message = "Great job completing the quiz!" ++ rest)) :=
  ⟨by decide, by decide,
    C5_next_at_total_is_finish ⟨some sampleQuiz⟩ [] "s2" (by decide) (some "b")
      "w1" 2 (by decide)⟩

/-- C6: question resolution for submit and clear is two-tiered: the
thread-scoped quiz list is searched first and the fallback store is consulted
exactly when the id misses there (or no thread quiz exists); the total count
rendered into the widget is the length of whichever tier supplied the
question. -/
theorem C6_two_tier_resolution (meta : ThreadMeta) (store : List MCQQuestion)
    (qid : String) :
    (∀ quiz q, meta.currentQuiz = some quiz →
        quiz.find? (fun x => x.id == qid) = some q →
        resolve_question meta store qid = (some q, (quiz.length : Int)))
    ∧ (∀ quiz, meta.currentQuiz = some quiz →
        quiz.find? (fun x => x.id == qid) = none →
        resolve_question meta store qid = (get_question store qid, (store.length : Int)))
    ∧ (meta.currentQuiz = none →
        resolve_question meta store qid = (get_question store qid, (store.length : Int)))
    ∧ (qid ≠ "" → ∀ ans idx sid q t, resolve_question meta store qid = (some q, t) →
        (_handle_submit_action meta store ⟨some qid, ans, idx⟩ (some ⟨sid, true⟩)).events
          = [StreamEvent.threadItemUpdated sid
              (build_mcq_widget qid (idx.getD 1) t q.prompt q.options (ans.getD "")
                (if pyEq ans q.correct_answer then "correct" else "incorrect")
                ⟨(if pyEq ans q.correct_answer then none else q.hint),
                 (if pyEq ans q.correct_answer then q.explanation else none)⟩)]
        ∧ (_handle_clear_action meta store ⟨some qid, ans, idx⟩ (some ⟨sid, true⟩)).events
          = [StreamEvent.threadItemUpdated sid
              (build_mcq_widget qid (idx.getD 1) t q.prompt q.options "" "idle"
                ⟨none, none⟩)]) := by
  refine ⟨?_, ?_, ?_, ?_⟩
  · intro quiz q hmeta hfind
    simp [resolve_question, hmeta, hfind]
  · intro quiz hmeta hfind
    simp [resolve_question, hmeta, hfind]
  · intro hmeta
    simp [resolve_question, hmeta]
  · intro hqid ans idx sid q t hres
    constructor
    · rw [submit_resolved_eq meta store qid hqid ans idx sid q t hres]
    · rw [clear_resolved_eq meta store qid hqid ans idx sid q t hres]

theorem C6_witness :
    (ThreadMeta.mk (some sampleQuiz)).currentQuiz = some sampleQuiz ∧
    sampleQuiz.find? (fun x => x.id == "s2") = some sampleQ2 ∧
    resolve_question ⟨some sampleQuiz⟩ default_questions "s2"
      = (some sampleQ2, ((sampleQuiz.length : Int))) ∧
    sampleQuiz.find? (fun x => x.id == "zzz") = none ∧
    resolve_question ⟨some sampleQuiz⟩ default_questions "zzz"
      = (get_question default_questions "zzz", (default_questions.length : Int)) :=
  ⟨rfl, rfl,
    (C6_two_tier_resolution ⟨some sampleQuiz⟩ default_questions "s2").1 sampleQuiz
      sampleQ2 rfl rfl,
    rfl,
    ((C6_two_tier_resolution ⟨some sampleQuiz⟩ default_questions "zzz").2).1 sampleQuiz
      rfl rfl⟩

/-- C7 counterexample: an inbound mcq.finish action with the sender widget
reference missing — one of the conditions the claim lists as making an action
unhandleable — still emits a stream event: the dispatcher routes it to the
finish handler, which reads neither the sender nor the payload and yields the
closing assistant message. -/
theorem C7_counterexample :
    action "mcq.finish" ⟨none⟩ [] ⟨none, none, none⟩ none
        = Except.ok ⟨[StreamEvent.threadItemDone closing_message], []⟩
    ∧ [StreamEvent.threadItemDone closing_message] ≠ ([] : List StreamEvent) :=
  ⟨rfl, by simp⟩

/-- C7 (amended): an action of unrecognized type yields no events and no
state change; a submit, clear or next action whose payload lacks a truthy
questionId or whose sender widget reference is missing yields no events and
no hidden record; a submit or clear action whose questionId misses both
lookup tiers likewise aborts silently before appending its hidden record.
The finish handler (and a next action delegating to it) reads no required
field and always emits the closing message, and a next action does not check
tier membership of its questionId. -/
theorem C7_silent_abort_policy (meta : ThreadMeta) (store : List MCQQuestion)
    (payload : ActionPayload) (sender : Option Sender) (t : String) :
    (t ≠ "mcq.submit" → t ≠ "mcq.clear" → t ≠ "mcq.next" → t ≠ "mcq.finish" →
      action t meta store payload sender = Except.ok ⟨[], []⟩)
    ∧ (strFalsy payload.questionId = true ∨ senderOk sender = false →
        _handle_submit_action meta store payload sender = ⟨[], []⟩
        ∧ _handle_clear_action meta store payload sender = ⟨[], []⟩
        ∧ _handle_next_action meta store payload sender = Except.ok ⟨[], []⟩)
    ∧ (∀ qid sid hw, payload.questionId = some qid → qid ≠ "" →
        (resolve_question meta store qid).1 = none →
        _handle_submit_action meta store payload (some ⟨sid, hw⟩) = ⟨[], []⟩
        ∧ _handle_clear_action meta store payload (some ⟨sid, hw⟩) = ⟨[], []⟩)
    ∧ action "mcq.finish" meta store payload sender
        = Except.ok ⟨[StreamEvent.threadItemDone closing_message], []⟩ := by
  obtain ⟨pq, pa, pi⟩ := payload
  refine ⟨?_, ?_, ?_, rfl⟩
  · intro h1 h2 h3 h4
    simp [action, h1, h2, h3, h4]
  · intro h
    exact ⟨submit_abort _ _ _ _ h, clear_abort _ _ _ _ h, next_abort _ _ _ _ h⟩
  · intro qid sid hw hpq hqid hres
    simp only at hpq
    subst hpq
    exact ⟨submit_notfound meta store qid hqid pa pi sid hw hres,
      clear_notfound meta store qid hqid pa pi sid hw hres⟩

theorem C7_witness :
    ("bogus.type" : String) ≠ "mcq.submit" ∧ ("bogus.type" : String) ≠ "mcq.clear" ∧
    ("bogus.type" : String) ≠ "mcq.next" ∧ ("bogus.type" : String) ≠ "mcq.finish" ∧
    action "bogus.type" ⟨some sampleQuiz⟩ [] ⟨some "s1", none, none⟩ none
      = Except.ok ⟨[], []⟩ ∧
    (strFalsy (ActionPayload.mk (some "s1") none none).questionId = true ∨
      senderOk (none : Option Sender) = false) ∧
    (_handle_submit_action ⟨some sampleQuiz⟩ [] ⟨some "s1", none, none⟩ none = ⟨[], []⟩
      ∧ _handle_clear_action ⟨some sampleQuiz⟩ [] ⟨some "s1", none, none⟩ none = ⟨[], []⟩
      ∧ _handle_next_action ⟨some sampleQuiz⟩ [] ⟨some "s1", none, none⟩ none
          = Except.ok ⟨[], []⟩) ∧
    (ActionPayload.mk (some "zzz") none none).questionId = some "zzz" ∧
    ("zzz" : String) ≠ "" ∧
    (resolve_question ⟨some sampleQuiz⟩ [] "zzz").1 = none ∧
    (_handle_submit_action ⟨some sampleQuiz⟩ [] ⟨some "zzz", none, none⟩
        (some ⟨"w1", true⟩) = ⟨[], []⟩
      ∧ _handle_clear_action ⟨some sampleQuiz⟩ [] ⟨some "zzz", none, none⟩
          (some ⟨"w1", true⟩) = ⟨[], []⟩) :=
  ⟨by decide, by decide, by decide, by decide,
    (C7_silent_abort_policy ⟨some sampleQuiz⟩ [] ⟨some "s1", none, none⟩ none
        "bogus.type").1 (by decide) (by decide) (by decide) (by decide),
    Or.inr rfl,
    (C7_silent_abort_policy ⟨some sampleQuiz⟩ [] ⟨some "s1", none, none⟩ none
        "bogus.type").2.1 (Or.inr rfl),
    rfl, by decide, rfl,
    ((C7_silent_abort_policy ⟨some sampleQuiz⟩ [] ⟨some "zzz", none, none⟩
        (some ⟨"w1", true⟩) "mcq.submit").2.2.1 "zzz" "w1" true rfl (by decide) rfl)⟩

/-- C8: in the fallback widget document the advance button is labelled Finish
with action type mcq.finish exactly at the last position, labelled Next with
action type mcq.next otherwise, and is disabled precisely when the status is
not correct. -/
theorem C8_advance_button_spec (data : WidgetData) :
    advance_button (_build_fallback_widget data)
        = some (WidgetNode.ClickButton
            (if data.index == data.total then "Finish" else "Next")
            none (some "chevron-right")
            ⟨(if data.index == data.total then "mcq.finish" else "mcq.next"),
              data.questionId, data.index⟩
            (some (data.status != "correct")))
    ∧ ((data.index == data.total) = true ↔ data.index = data.total)
    ∧ ((data.status != "correct") = true ↔ data.status ≠ "correct") := by
  refine ⟨rfl, beq_iff_eq, ?_⟩
  simp [bne_iff_ne]

/-- C9: the widget renderer is deterministic and depends on nothing beyond
its input tuple: componentwise-equal inputs produce structurally identical
output trees, for both the public entry point and the fallback builder. -/
theorem C9_render_deterministic
    (qa qb : String) (ia ib ta tb : Int) (pa pb : String)
    (oa ob : List MCQOption) (sa sb sta stb : String) (fa fb : Feedback)
    (h1 : qa = qb) (h2 : ia = ib) (h3 : ta = tb) (h4 : pa = pb) (h5 : oa = ob)
    (h6 : sa = sb) (h7 : sta = stb) (h8 : fa = fb) :
    build_mcq_widget qa ia ta pa oa sa sta fa = build_mcq_widget qb ib tb pb ob sb stb fb
    ∧ _build_fallback_widget ⟨qa, ia, ta, pa, oa, sa, sta, fa⟩
        = _build_fallback_widget ⟨qb, ib, tb, pb, ob, sb, stb, fb⟩ := by
  subst h1 h2 h3 h4 h5 h6 h7 h8
  exact ⟨rfl, rfl⟩

theorem C9_witness :
    ("s1" : String) = "s1" ∧
    (build_mcq_widget "s1" 1 2 "P1" [] "" "idle" ⟨none, none⟩
        = build_mcq_widget "s1" 1 2 "P1" [] "" "idle" ⟨none, none⟩
      ∧ _build_fallback_widget ⟨"s1", 1, 2, "P1", [], "", "idle", ⟨none, none⟩⟩
        = _build_fallback_widget ⟨"s1", 1, 2, "P1", [], "", "idle", ⟨none, none⟩⟩) :=
  ⟨rfl, C9_render_deterministic "s1" "s1" 1 1 2 2 "P1" "P1" [] [] "" "" "idle" "idle"
    ⟨none, none⟩ ⟨none, none⟩ rfl rfl rfl rfl rfl rfl rfl rfl⟩

/-- C10: a submit, clear or next action whose payload omits the index key is
handled exactly as if the payload carried index 1: submit and clear rebuild
the widget at index 1 and next computes the next position as 2. -/
theorem C10_missing_index_defaults (meta : ThreadMeta) (store : List MCQQuestion)
    (qidO ans : Option String) (sender : Option Sender) :
    _handle_submit_action meta store ⟨qidO, ans, none⟩ sender
        = _handle_submit_action meta store ⟨qidO, ans, some 1⟩ sender
    ∧ _handle_clear_action meta store ⟨qidO, ans, none⟩ sender
        = _handle_clear_action meta store ⟨qidO, ans, some 1⟩ sender
    ∧ _handle_next_action meta store ⟨qidO, ans, none⟩ sender
        = _handle_next_action meta store ⟨qidO, ans, some 1⟩ sender
    ∧ (∀ qid, qidO = some qid → qid ≠ "" → ∀ sid q t,
        resolve_question meta store qid = (some q, t) →
        (_handle_submit_action meta store ⟨qidO, ans, none⟩ (some ⟨sid, true⟩)).events
          = [StreamEvent.threadItemUpdated sid
              (build_mcq_widget qid 1 t q.prompt q.options (ans.getD "")
                (if pyEq ans q.correct_answer then "correct" else "incorrect")
                ⟨(if pyEq ans q.correct_answer then none else q.hint),
                 (if pyEq ans q.correct_answer then q.explanation else none)⟩)]
        ∧ (_handle_clear_action meta store ⟨qidO, ans, none⟩ (some ⟨sid, true⟩)).events
          = [StreamEvent.threadItemUpdated sid
              (build_mcq_widget qid 1 t q.prompt q.options "" "idle" ⟨none, none⟩)])
    ∧ (∀ qid, qidO = some qid → qid ≠ "" → ∀ sid,
        ((1 : Int) + 1 > ((next_questions meta store).length : Int) →
          _handle_next_action meta store ⟨qidO, ans, none⟩ (some ⟨sid, true⟩)
            = Except.ok _handle_finish_action)
        ∧ (∀ q, (1 : Int) + 1 ≤ ((next_questions meta store).length : Int) →
            (next_questions meta store).get? (1 : Int).toNat = some q →
            _handle_next_action meta store ⟨qidO, ans, none⟩ (some ⟨sid, true⟩)
              = Except.ok ⟨[StreamEvent.threadItemUpdated sid
                  (build_mcq_widget q.id ((1 : Int) + 1)
                    ((next_questions meta store).length : Int)
                    q.prompt q.options "" "idle" ⟨none, none⟩)], []⟩)) := by
  refine ⟨rfl, rfl, rfl, ?_, ?_⟩
  · rintro qid rfl hqid sid q t hres
    constructor
    · rw [submit_resolved_eq meta store qid hqid ans none sid q t hres]
      exact rfl
    · rw [clear_resolved_eq meta store qid hqid ans none sid q t hres]
      exact rfl
  · rintro qid rfl hqid sid
    constructor
    · intro hgt
      calc _handle_next_action meta store ⟨some qid, ans, none⟩ (some ⟨sid, true⟩)
            = _handle_next_action meta store ⟨some qid, ans, some 1⟩ (some ⟨sid, true⟩) := rfl
        _ = Except.ok _handle_finish_action :=
            next_finish_eq meta store qid hqid ans 1 sid hgt
    · intro q hle hget
      calc _handle_next_action meta store ⟨some qid, ans, none⟩ (some ⟨sid, true⟩)
            = _handle_next_action meta store ⟨some qid, ans, some 1⟩ (some ⟨sid, true⟩) := rfl
        _ = Except.ok ⟨[StreamEvent.threadItemUpdated sid
              (build_mcq_widget q.id ((1 : Int) + 1)
                ((next_questions meta store).length : Int)
                q.prompt q.options "" "idle" ⟨none, none⟩)], []⟩ :=
            next_render_eq meta store qid hqid ans 1 (by decide) sid q hle hget

theorem C10_witness :
    (_handle_submit_action ⟨some sampleQuiz⟩ [] ⟨some "s1", some "a", none⟩
        (some ⟨"w1", true⟩)
      = _handle_submit_action ⟨some sampleQuiz⟩ [] ⟨some "s1", some "a", some 1⟩
        (some ⟨"w1", true⟩)) ∧
    (some "s1" : Option String) = some "s1" ∧ ("s1" : String) ≠ "" ∧
    resolve_question ⟨some sampleQuiz⟩ [] "s1" = (some sampleQ1, (2 : Int)) ∧
    ((_handle_submit_action ⟨some sampleQuiz⟩ [] ⟨some "s1", some "a", none⟩
        (some ⟨"w1", true⟩)).events
      = [StreamEvent.threadItemUpdated "w1"
          (build_mcq_widget "s1" 1 2 sampleQ1.prompt sampleQ1.options
            ((some "a" : Option String).getD "")
            (if pyEq (some "a") sampleQ1.correct_answer then "correct" else "incorrect")
            ⟨(if pyEq (some "a") sampleQ1.correct_answer then none else sampleQ1.hint),
             (if pyEq (some "a") sampleQ1.correct_answer then sampleQ1.explanation else none)⟩)]
    ∧ (_handle_clear_action ⟨some sampleQuiz⟩ [] ⟨some "s1", some "a", none⟩
        (some ⟨"w1", true⟩)).events
      = [StreamEvent.threadItemUpdated "w1"
          (build_mcq_widget "s1" 1 2 sampleQ1.prompt sampleQ1.options "" "idle"
            ⟨none, none⟩)]) :=
  ⟨(C10_missing_index_defaults ⟨some sampleQuiz⟩ [] (some "s1") (some "a")
      (some ⟨"w1", true⟩)).1,
    rfl, by decide, rfl,
    (C10_missing_index_defaults ⟨some sampleQuiz⟩ [] (some "s1") (some "a")
      (some ⟨"w1", true⟩)).2.2.2.1 "s1" rfl (by decide) "w1" sampleQ1 2 rfl⟩
